import Mathlib

/-!
# Verification of the parking location service (src/parking/backend/app.js)

Shallow embedding of the Express HTTP service in `src/parking/backend/app.js`:
the JSON value semantics its validation relies on, the two route handlers,
the JSON-error middleware, the routing table, and the SIGTERM shutdown
sequence.  The mongoose `Location` model (`./models/Location`) is not part of
the sources, so the record store is modelled from the spec where needed; each
such definition is marked in its doc comment.

JavaScript numbers are modelled as rationals plus the special values
`NaN`, `Infinity` and `-Infinity`; JSON scalar values as an inductive type
(nested objects/arrays inside the body fields are not modelled).
-/

/-- A JavaScript number: a finite value (modelled as a rational) or one of the
special values `NaN`, `Infinity`, `-Infinity`. -/
inductive JSNum where
  | fin (q : ℚ)
  | nan
  | posInf
  | negInf
deriving DecidableEq, Repr

/-- A JSON scalar value as it can appear in a request-body field after
`express.json` parsing and destructuring; a field absent from the body
destructures to `undef`. -/
inductive JSValue where
  | undef
  | null
  | num (n : JSNum)
  | str (s : String)
  | bool (b : Bool)
deriving DecidableEq, Repr

/-- Value of a run of decimal digits. -/
def natOfDigits (cs : List Char) : Nat :=
  cs.foldl (fun a c => a * 10 + (c.toNat - 48)) 0

/-- Unsigned decimal literal: `digits`, `digits.digits`, `digits.` or
`.digits`. -/
def parseDecimal (cs : List Char) : Option ℚ :=
  let intPart := cs.takeWhile Char.isDigit
  let rest := cs.dropWhile Char.isDigit
  match rest with
  | [] => if intPart.isEmpty then none else some (natOfDigits intPart : ℚ)
  | '.' :: frac =>
      if frac.all Char.isDigit && !(intPart.isEmpty && frac.isEmpty) then
        some ((natOfDigits intPart : ℚ) + (natOfDigits frac : ℚ) / (10 ^ frac.length))
      else none
  | _ => none

/-- Strip leading and trailing whitespace from a character list. -/
def trimChars (cs : List Char) : List Char :=
  ((cs.dropWhile Char.isWhitespace).reverse.dropWhile Char.isWhitespace).reverse

/-- ECMAScript `StringToNumber`, restricted to the forms the claims exercise:
whitespace trimming, the empty string (`0`), signed `Infinity`, and signed
decimal literals without an exponent; every other string maps to `NaN`
(hexadecimal and exponent forms are out of the modelled fragment). -/
def strToNumber (s : String) : JSNum :=
  let t := trimChars s.toList
  if t = [] then .fin 0
  else if t = "Infinity".toList ∨ t = "+Infinity".toList then .posInf
  else if t = "-Infinity".toList then .negInf
  else
    match t with
    | '+' :: rest => match parseDecimal rest with
      | some q => .fin q
      | none => .nan
    | '-' :: rest => match parseDecimal rest with
      | some q => .fin (-q)
      | none => .nan
    | cs => match parseDecimal cs with
      | some q => .fin q
      | none => .nan

/-- ECMAScript `ToNumber` on the modelled scalar values. -/
def toNumber : JSValue → JSNum
  | .undef => .nan
  | .null => .fin 0
  | .num n => n
  | .str s => strToNumber s
  | .bool b => .fin (if b then 1 else 0)

/-- JavaScript loose equality against `null` (`x == null`): true exactly for
`null` and `undefined`. -/
def isNullish : JSValue → Bool
  | .undef => true
  | .null => true
  | _ => false

/-- The global `isFinite`: coerce with `ToNumber`, true iff the result is a
finite number. -/
def jsIsFinite (v : JSValue) : Bool :=
  match toNumber v with
  | .fin _ => true
  | _ => false

/-- JavaScript `v < q` where `q` is a number literal: `ToNumber` the left
operand and compare; a `NaN` comparison is false. -/
def jsltNum (v : JSValue) (q : ℚ) : Bool :=
  match toNumber v with
  | .fin a => decide (a < q)
  | .nan => false
  | .posInf => false
  | .negInf => true

/-- JavaScript `v > q` where `q` is a number literal. -/
def jsgtNum (v : JSValue) (q : ℚ) : Bool :=
  match toNumber v with
  | .fin a => decide (q < a)
  | .nan => false
  | .posInf => true
  | .negInf => false

/-- The destructured POST /send-location request body
(`const { latitude, longitude } = req.body`). -/
structure Body where
  latitude : JSValue
  longitude : JSValue
deriving DecidableEq, Repr

/-- The latitude guard of app.js line 65:
`!isFinite(latitude) || latitude < -90 || latitude > 90`. -/
def latInvalid (v : JSValue) : Bool :=
  !(jsIsFinite v) || jsltNum v (-90) || jsgtNum v 90

/-- The longitude guard of app.js line 71:
`!isFinite(longitude) || longitude < -180 || longitude > 180`. -/
def lonInvalid (v : JSValue) : Bool :=
  !(jsIsFinite v) || jsltNum v (-180) || jsgtNum v 180

/-- Outcome of the validation section of the POST /send-location handler
(app.js lines 53-76): which early return fires, or which values reach
`new Location({latitude, longitude})`. -/
inductive PostOutcome where
  | missingFields (received : Body)
  | invalidLatitude (received : JSValue)
  | invalidLongitude (received : JSValue)
  | create (latitude longitude : JSValue)
deriving DecidableEq, Repr

/-- The validation section of the POST /send-location handler, app.js
lines 53-76, in source order: the `latitude == null || longitude == null`
check, then the latitude range guard, then the longitude range guard. -/
def sendLocationValidate (b : Body) : PostOutcome :=
  if isNullish b.latitude || isNullish b.longitude then
    .missingFields b
  else if latInvalid b.latitude then
    .invalidLatitude b.latitude
  else if lonInvalid b.longitude then
    .invalidLongitude b.longitude
  else
    .create b.latitude b.longitude

/-- A stored location document.  Modelled from the spec: the mongoose
`Location` schema (`./models/Location`) is not under the sources; per the
spec's data model a record carries `latitude`, `longitude` and a
storage-assigned `createdAt` timestamp. -/
structure LocationRecord where
  latitude : ℚ
  longitude : ℚ
  createdAt : Nat
deriving DecidableEq, Repr

/-- Modelled from the spec: the state of the document store (the mongoose
collection behind the missing `Location` model): the persisted records plus
the storage clock used to assign `createdAt`. -/
structure StoreState where
  records : List LocationRecord
  now : Nat
deriving DecidableEq, Repr

/-- Modelled from the spec: the store `create` operation
(`new Location({latitude, longitude}); newLocation.save()`): persist a new
record with a server-assigned creation timestamp and return the stored
record. -/
def StoreState.create (s : StoreState) (lat lon : ℚ) : StoreState × LocationRecord :=
  let r : LocationRecord := ⟨lat, lon, s.now⟩
  (⟨s.records ++ [r], s.now + 1⟩, r)

/-- Ordering used by `Location.find().sort("-createdAt")`: descending
creation time. -/
def byCreatedAtDesc (a b : LocationRecord) : Prop :=
  b.createdAt ≤ a.createdAt

instance : DecidableRel byCreatedAtDesc :=
  fun a b => Nat.decLe b.createdAt a.createdAt

instance : IsTotal LocationRecord byCreatedAtDesc :=
  ⟨fun a b => Nat.le_total b.createdAt a.createdAt⟩

instance : IsTrans LocationRecord byCreatedAtDesc :=
  ⟨fun _ _ _ hab hbc => Nat.le_trans hbc hab⟩

/-- Modelled from the spec: the store query
`Location.find().sort("-createdAt").limit(limit)` (its semantics live in the
mongoose library): the records sorted newest first, truncated to `limit`. -/
def StoreState.listRecent (s : StoreState) (limit : Nat) : List LocationRecord :=
  (s.records.insertionSort byCreatedAtDesc).take limit

/-- A JSON response body produced by the service. -/
inductive RespBody where
  | errReceivedBody (error : String) (received : Body)
  | errReceivedVal (error : String) (received : JSValue)
  | errOnly (error : String)
  | errMsg (error message : String)
  | created (message : String) (location : LocationRecord)
  | list (locations : List LocationRecord)
deriving DecidableEq, Repr

/-- An HTTP response: status code plus JSON body. -/
structure HttpResponse where
  status : Nat
  body : RespBody
deriving DecidableEq, Repr

/-- The POST /send-location handler (app.js lines 51-94) given the result of
`newLocation.save()`: the validation early returns, the 201 success
response, and the catch branch turning a save failure into a 500 with the
underlying message. -/
def sendLocation (b : Body) (saveResult : Except String LocationRecord) : HttpResponse :=
  match sendLocationValidate b with
  | .missingFields rc => ⟨400, .errReceivedBody "Missing required fields" rc⟩
  | .invalidLatitude v => ⟨400, .errReceivedVal "Invalid latitude value" v⟩
  | .invalidLongitude v => ⟨400, .errReceivedVal "Invalid longitude value" v⟩
  | .create _ _ =>
    match saveResult with
    | .ok loc => ⟨201, .created "Location saved successfully" loc⟩
    | .error m => ⟨500, .errMsg "Internal server error" m⟩

/-- The POST /send-location handler run against the modelled store on the
path where the save succeeds: validation failures leave the store untouched;
on pass, the coordinates (cast to numbers by the storage layer) are
persisted.  The final branch is unreachable: validation guarantees both
casts are finite (`sendLocationValidate_create_range`). -/
def handlePost (s : StoreState) (b : Body) : StoreState × HttpResponse :=
  match sendLocationValidate b with
  | .missingFields rc => (s, ⟨400, .errReceivedBody "Missing required fields" rc⟩)
  | .invalidLatitude v => (s, ⟨400, .errReceivedVal "Invalid latitude value" v⟩)
  | .invalidLongitude v => (s, ⟨400, .errReceivedVal "Invalid longitude value" v⟩)
  | .create lat lon =>
    match toNumber lat, toNumber lon with
    | .fin la, .fin lo =>
      let p := s.create la lo
      (p.1, ⟨201, .created "Location saved successfully" p.2⟩)
    | _, _ => (s, ⟨500, .errMsg "Internal server error" "cast failure"⟩)

/-- The GET /locations handler (app.js lines 97-109) given the result of the
store query: 200 with the records as a JSON array, or the catch branch
turning a store failure into a 500 with the underlying message. -/
def handleGetLocations (q : Except String (List LocationRecord)) : HttpResponse :=
  match q with
  | .ok locs => ⟨200, .list locs⟩
  | .error m => ⟨500, .errMsg "Error fetching locations" m⟩

/-- The error raised by a middleware stage, as inspected by the JSON error
middleware: `err instanceof SyntaxError`, `err.status`, `"body" in err`. -/
structure MiddlewareError where
  isSyntaxError : Bool
  status : Nat
  hasBody : Bool
deriving DecidableEq, Repr

/-- The JSON error middleware of app.js lines 39-45: answer
`400 {error: "Invalid JSON format"}` when the error is a SyntaxError with
status 400 carrying a `body` property, otherwise fall through (`next()`). -/
def jsonErrorMiddleware (e : MiddlewareError) : Option HttpResponse :=
  if e.isSyntaxError && e.status == 400 && e.hasBody then
    some ⟨400, .errOnly "Invalid JSON format"⟩
  else
    none

/-- Modelled from the spec: the error `express.json()` raises on a malformed
request body (the parser is library code, not under the sources) — a
`SyntaxError` with status 400 carrying the offending `body`. -/
def malformedJsonError : MiddlewareError := ⟨true, 400, true⟩

/-- A POST /send-location request as it reaches the middleware chain: either
its body failed JSON parsing, or it parsed to a `Body`. -/
inductive PostRequest where
  | malformed
  | wellFormed (b : Body)
deriving DecidableEq, Repr

/-- The middleware chain for POST /send-location: a parse failure is answered
by `jsonErrorMiddleware` before the route body runs (so the save result is
never consulted); a parsed body reaches the route handler. -/
def postPipeline (r : PostRequest) (saveResult : Except String LocationRecord) : HttpResponse :=
  match r with
  | .malformed => (jsonErrorMiddleware malformedJsonError).getD (sendLocation ⟨.undef, .undef⟩ saveResult)
  | .wellFormed b => sendLocation b saveResult

/-- Phase of the process lifecycle relevant to shutdown (spec section 4.4):
normal operation, draining after SIGTERM, closing the storage connection
after the listener has drained, stopped. -/
inductive Phase where
  | listening
  | draining
  | dbClosing
  | stopped
deriving DecidableEq, Repr

/-- Observable process state during shutdown: lifecycle phase, number of
in-flight requests, whether the storage connection is open, and the exit
code once the process has exited. -/
structure Sys where
  phase : Phase
  inflight : Nat
  dbOpen : Bool
  exitCode : Option Nat
deriving DecidableEq, Repr

/-- The process before SIGTERM: listening, storage connection open, not
exited. -/
def sysInit : Sys := ⟨.listening, 0, true, none⟩

/-- Modelled from the spec: the events of the SIGTERM shutdown path of
app.js lines 129-137 together with the drain semantics of the Node HTTP
listener and of `mongoose.connection.close` (both library code, not under
the sources).  `server.close(cb)` stops new connections being accepted and
invokes `cb` only once no request is in flight (`drainDone`); the callback
closes the storage connection (`dbClose`) and only its own callback calls
`process.exit(0)` (`exit`). -/
inductive SStep : Sys → Sys → Prop where
  | accept (s : Sys) : s.phase = .listening →
      SStep s { s with inflight := s.inflight + 1 }
  | finish (s : Sys) (n : Nat) : s.inflight = n + 1 →
      SStep s { s with inflight := n }
  | sigterm (s : Sys) : s.phase = .listening →
      SStep s { s with phase := .draining }
  | drainDone (s : Sys) : s.phase = .draining → s.inflight = 0 →
      SStep s { s with phase := .dbClosing }
  | dbClose (s : Sys) : s.phase = .dbClosing →
      SStep s { s with dbOpen := false }
  | exit (s : Sys) : s.phase = .dbClosing → s.dbOpen = false →
      SStep s { s with phase := .stopped, exitCode := some 0 }

/-- Invariant carried through every shutdown trace: the storage connection is
closed only after the listener has drained, and the process exits with code 0
only after the storage connection is closed. -/
def shutdownInv (s : Sys) : Prop :=
  (s.dbOpen = false → s.inflight = 0 ∧ (s.phase = .dbClosing ∨ s.phase = .stopped)) ∧
  (∀ c, s.exitCode = some c → c = 0 ∧ s.dbOpen = false ∧ s.phase = .stopped) ∧
  ((s.phase = .dbClosing ∨ s.phase = .stopped) → s.inflight = 0)

/-- HTTP method, restricted to the two the CORS policy admits. -/
inductive Method where
  | GET
  | POST
deriving DecidableEq, Repr

/-- Where Express routes a request: one of the two API handlers, a static
asset, the `index.html` fallback, or the framework's default 404. -/
inductive Routed where
  | apiSendLocation
  | apiLocations
  | staticAsset (path : String)
  | indexHtml
  | notFound
deriving DecidableEq, Repr

/-- Modelled from the spec: Express's dispatch over the registrations of
app.js in order — `app.post("/send-location")`, `app.get("/locations")`,
`express.static` (which serves only GET requests whose path matches an
existing asset, and passes every other request through), `app.get("*")`
serving `index.html`, and finally the framework's default 404 (the spec's
interface table lists the static route as `GET /*`).  `hasAsset` says which
paths match a file in the static bundle. -/
def route (hasAsset : String → Bool) (m : Method) (p : String) : Routed :=
  if m = .POST ∧ p = "/send-location" then .apiSendLocation
  else if m = .GET ∧ p = "/locations" then .apiLocations
  else if m = .GET ∧ hasAsset p then .staticAsset p
  else if m = .GET then .indexHtml
  else .notFound

/-- A store holding eleven records with pairwise distinct creation
timestamps, used to exercise the GET /locations guarantees. -/
def c3SampleStore : StoreState :=
  ⟨[⟨1, 2, 3⟩, ⟨4, 5, 1⟩, ⟨6, 7, 4⟩, ⟨8, 9, 0⟩, ⟨10, 11, 5⟩, ⟨12, 13, 9⟩,
    ⟨14, 15, 2⟩, ⟨16, 17, 6⟩, ⟨18, 19, 8⟩, ⟨20, 21, 7⟩, ⟨22, 23, 10⟩], 11⟩

theorem latInvalid_fin_false (la : ℚ) (h1 : -90 ≤ la) (h2 : la ≤ 90) :
    latInvalid (.num (.fin la)) = false := by
  simp [latInvalid, jsIsFinite, jsltNum, jsgtNum, toNumber]
  exact ⟨h1, h2⟩

theorem lonInvalid_fin_false (lo : ℚ) (h1 : -180 ≤ lo) (h2 : lo ≤ 180) :
    lonInvalid (.num (.fin lo)) = false := by
  simp [lonInvalid, jsIsFinite, jsltNum, jsgtNum, toNumber]
  exact ⟨h1, h2⟩

theorem latInvalid_false_range (v : JSValue) (h : latInvalid v = false) :
    ∃ la, toNumber v = .fin la ∧ -90 ≤ la ∧ la ≤ 90 := by
  unfold latInvalid jsIsFinite jsltNum jsgtNum at h
  cases hv : toNumber v with
  | fin a =>
      rw [hv] at h
      simp at h
      exact ⟨a, rfl, h.1, h.2⟩
  | nan => rw [hv] at h; simp at h
  | posInf => rw [hv] at h; simp at h
  | negInf => rw [hv] at h; simp at h

theorem lonInvalid_false_range (v : JSValue) (h : lonInvalid v = false) :
    ∃ lo, toNumber v = .fin lo ∧ -180 ≤ lo ∧ lo ≤ 180 := by
  unfold lonInvalid jsIsFinite jsltNum jsgtNum at h
  cases hv : toNumber v with
  | fin a =>
      rw [hv] at h
      simp at h
      exact ⟨a, rfl, h.1, h.2⟩
  | nan => rw [hv] at h; simp at h
  | posInf => rw [hv] at h; simp at h
  | negInf => rw [hv] at h; simp at h

theorem validate_create_elim (b : Body) (lat lon : JSValue)
    (h : sendLocationValidate b = .create lat lon) :
    lat = b.latitude ∧ lon = b.longitude ∧
    latInvalid b.latitude = false ∧ lonInvalid b.longitude = false := by
  unfold sendLocationValidate at h
  split at h
  · cases h
  · split at h
    · cases h
    · split at h
      · cases h
      · rename_i c1 c2 c3
        injection h with ha hb
        exact ⟨ha.symm, hb.symm, Bool.not_eq_true _ ▸ c2, Bool.not_eq_true _ ▸ c3⟩

/-- C1: POST /send-location validation is applied in source order with the
first failure winning, each failure answered by HTTP 400 with an
`{error, received}` body: absent/null field → "Missing required fields";
then bad latitude → "Invalid latitude value"; then bad longitude →
"Invalid longitude value"; when both coordinates are invalid the latitude
error is the one returned. -/
theorem c1_post_validation_order (b : Body) :
    ((isNullish b.latitude || isNullish b.longitude) = true →
      ∀ sr, sendLocation b sr = ⟨400, .errReceivedBody "Missing required fields" b⟩) ∧
    ((isNullish b.latitude || isNullish b.longitude) = false →
      latInvalid b.latitude = true →
      ∀ sr, sendLocation b sr = ⟨400, .errReceivedVal "Invalid latitude value" b.latitude⟩) ∧
    ((isNullish b.latitude || isNullish b.longitude) = false →
      latInvalid b.latitude = false → lonInvalid b.longitude = true →
      ∀ sr, sendLocation b sr = ⟨400, .errReceivedVal "Invalid longitude value" b.longitude⟩) ∧
    ((isNullish b.latitude || isNullish b.longitude) = false →
      latInvalid b.latitude = true → lonInvalid b.longitude = true →
      ∀ sr, sendLocation b sr = ⟨400, .errReceivedVal "Invalid latitude value" b.latitude⟩) := by
  refine ⟨fun h1 sr => ?_, fun h1 h2 sr => ?_, fun h1 h2 h3 sr => ?_, fun h1 h2 h3 sr => ?_⟩
  · simp [sendLocation, sendLocationValidate, h1]
  · simp [sendLocation, sendLocationValidate, h1, h2]
  · simp [sendLocation, sendLocationValidate, h1, h2, h3]
  · simp [sendLocation, sendLocationValidate, h1, h2]

/-- Witness for C1 at a request whose latitude 91 and longitude 181 are both
out of range: the latitude error wins. -/
theorem c1_post_validation_order_witness :
    sendLocation ⟨.num (.fin 91), .num (.fin 181)⟩ (.error "e")
      = ⟨400, .errReceivedVal "Invalid latitude value" (.num (.fin 91))⟩ :=
  (c1_post_validation_order ⟨.num (.fin 91), .num (.fin 181)⟩).2.2.2
    (by decide) (by decide) (by decide) (.error "e")

/-- C9: a coordinate equal to 0 is treated as present — the `== null` check
fires on neither field when both are supplied, so a zero coordinate
proceeds to range validation and, when both coordinates are valid, to the
store. -/
theorem c9_zero_is_present (b : Body)
    (h0 : b.latitude = JSValue.num (.fin 0) ∨ b.longitude = JSValue.num (.fin 0))
    (hlat : isNullish b.latitude = false) (hlon : isNullish b.longitude = false) :
    (∀ rc, sendLocationValidate b ≠ .missingFields rc) ∧
    sendLocationValidate ⟨.num (.fin 0), .num (.fin 0)⟩
      = .create (.num (.fin 0)) (.num (.fin 0)) := by
  refine ⟨fun rc => ?_, by decide⟩
  simp [sendLocationValidate, hlat, hlon]
  split
  · simp
  · split <;> simp

/-- Witness for C9 at the body `{latitude: 0, longitude: 0}`. -/
theorem c9_zero_is_present_witness :
    sendLocationValidate ⟨.num (.fin 0), .num (.fin 0)⟩
        ≠ .missingFields ⟨.num (.fin 0), .num (.fin 0)⟩ ∧
    sendLocationValidate ⟨.num (.fin 0), .num (.fin 0)⟩
        = .create (.num (.fin 0)) (.num (.fin 0)) :=
  have h := c9_zero_is_present ⟨.num (.fin 0), .num (.fin 0)⟩
    (Or.inl rfl) (by decide) (by decide)
  ⟨h.1 _, h.2⟩

/-- C10: validation never checks that the coordinates are numbers — the
string "45" and the boolean `true` (values that are not of the number type)
pass the coercing finiteness and range checks, so the handler reaches the
store `create` call with the non-number value itself. -/
theorem c10_non_number_passes :
    sendLocationValidate ⟨.str "45", .num (.fin 90)⟩
      = .create (.str "45") (.num (.fin 90)) ∧
    sendLocationValidate ⟨.bool true, .num (.fin 0)⟩
      = .create (.bool true) (.num (.fin 0)) ∧
    (∀ n, JSValue.str "45" ≠ .num n) ∧
    (∀ n, JSValue.bool true ≠ .num n) := by
  refine ⟨by decide, by decide, fun n h => ?_, fun n h => ?_⟩ <;> cases h

/-- C2: a body whose coordinates are finite numbers within [-90,90] and
[-180,180] (boundaries included) passes validation with exactly those
values reaching the store `create`; the stored record carries the same
coordinates and the handler answers 201 `{message, location}` with it. -/
theorem c2_valid_post_creates (b : Body) (la lo : ℚ) (s : StoreState)
    (hla : b.latitude = .num (.fin la)) (hlo : b.longitude = .num (.fin lo))
    (h1 : -90 ≤ la) (h2 : la ≤ 90) (h3 : -180 ≤ lo) (h4 : lo ≤ 180) :
    sendLocationValidate b = .create b.latitude b.longitude ∧
    (s.create la lo).2.latitude = la ∧
    (s.create la lo).2.longitude = lo ∧
    (s.create la lo).1.records = s.records ++ [(s.create la lo).2] ∧
    sendLocation b (.ok (s.create la lo).2)
      = ⟨201, .created "Location saved successfully" (s.create la lo).2⟩ := by
  have hv : sendLocationValidate b = .create b.latitude b.longitude := by
    simp [sendLocationValidate, hla, hlo, isNullish,
      latInvalid_fin_false la h1 h2, lonInvalid_fin_false lo h3 h4]
  exact ⟨hv, rfl, rfl, rfl, by simp [sendLocation, hv]⟩

/-- Witness for C2 at `latitude=45, longitude=90` (the boundary longitude)
against the empty store. -/
theorem c2_valid_post_creates_witness :
    sendLocationValidate ⟨.num (.fin 45), .num (.fin 90)⟩
        = .create (.num (.fin 45)) (.num (.fin 90)) ∧
    ((StoreState.mk [] 0).create 45 90).2.latitude = 45 ∧
    ((StoreState.mk [] 0).create 45 90).2.longitude = 90 ∧
    ((StoreState.mk [] 0).create 45 90).1.records
        = ([] : List LocationRecord) ++ [((StoreState.mk [] 0).create 45 90).2] ∧
    sendLocation ⟨.num (.fin 45), .num (.fin 90)⟩ (.ok ((StoreState.mk [] 0).create 45 90).2)
        = ⟨201, .created "Location saved successfully" ((StoreState.mk [] 0).create 45 90).2⟩ :=
  c2_valid_post_creates ⟨.num (.fin 45), .num (.fin 90)⟩ 45 90 ⟨[], 0⟩
    rfl rfl (by decide) (by decide) (by decide) (by decide)

/-- C5: a request whose body fails JSON parsing is answered by the JSON
error middleware with 400 `{error: "Invalid JSON format"}` before the route
body runs: the pipeline's answer is that response whatever the store would
have returned, so no validation or store operation is reached. -/
theorem c5_malformed_json (sr sr' : Except String LocationRecord) :
    jsonErrorMiddleware malformedJsonError = some ⟨400, .errOnly "Invalid JSON format"⟩ ∧
    postPipeline .malformed sr = ⟨400, .errOnly "Invalid JSON format"⟩ ∧
    postPipeline .malformed sr = postPipeline .malformed sr' :=
  ⟨rfl, rfl, rfl⟩

/-- C6: a failure raised by the persistence layer inside either route
handler is caught and answered with 500 and a JSON `{error, message}` body
whose `message` is the underlying error's message. -/
theorem c6_storage_failure_500 (b : Body) (lat lon : JSValue) (m : String)
    (h : sendLocationValidate b = .create lat lon) :
    sendLocation b (.error m) = ⟨500, .errMsg "Internal server error" m⟩ ∧
    handleGetLocations (.error m) = ⟨500, .errMsg "Error fetching locations" m⟩ :=
  ⟨by simp [sendLocation, h], rfl⟩

/-- Witness for C6 at a valid body and the store failure message
"connection lost". -/
theorem c6_storage_failure_500_witness :
    sendLocation ⟨.num (.fin 45), .num (.fin 90)⟩ (.error "connection lost")
        = ⟨500, .errMsg "Internal server error" "connection lost"⟩ ∧
    handleGetLocations (.error "connection lost")
        = ⟨500, .errMsg "Error fetching locations" "connection lost"⟩ :=
  c6_storage_failure_500 ⟨.num (.fin 45), .num (.fin 90)⟩
    (.num (.fin 45)) (.num (.fin 90)) "connection lost" (by decide)

/-- C4: a POST rejected with HTTP 400 leaves the store unchanged — the
store `create` is never invoked on a validation-failure path — and every
record the handler adds to the store has finite, in-range coordinates. -/
theorem c4_rejected_never_persisted (s : StoreState) (b : Body) :
    ((handlePost s b).2.status = 400 → (handlePost s b).1 = s) ∧
    (∀ r, r ∈ (handlePost s b).1.records → r ∈ s.records ∨
      (-90 ≤ r.latitude ∧ r.latitude ≤ 90 ∧ -180 ≤ r.longitude ∧ r.longitude ≤ 180)) := by
  unfold handlePost
  cases hv : sendLocationValidate b with
  | missingFields rc => exact ⟨fun _ => rfl, fun r hr => Or.inl hr⟩
  | invalidLatitude v => exact ⟨fun _ => rfl, fun r hr => Or.inl hr⟩
  | invalidLongitude v => exact ⟨fun _ => rfl, fun r hr => Or.inl hr⟩
  | create lat lon =>
      obtain ⟨ha, hb, hlatf, hlonf⟩ := validate_create_elim b lat lon hv
      obtain ⟨la, hla, hla1, hla2⟩ := latInvalid_false_range b.latitude hlatf
      obtain ⟨lo, hlo, hlo1, hlo2⟩ := lonInvalid_false_range b.longitude hlonf
      subst ha
      subst hb
      dsimp only
      rw [hla, hlo]
      refine ⟨fun h => absurd h (by simp [StoreState.create]), fun r hr => ?_⟩
      simp [StoreState.create] at hr
      rcases hr with hr | hr
      · exact Or.inl hr
      · subst hr
        exact Or.inr ⟨hla1, hla2, hlo1, hlo2⟩

/-- Witness for C4 at a body whose latitude is null: the 400 answer leaves
the empty store empty. -/
theorem c4_rejected_never_persisted_witness :
    (handlePost ⟨[], 0⟩ ⟨.null, .num (.fin 0)⟩).1 = (⟨[], 0⟩ : StoreState) :=
  (c4_rejected_never_persisted ⟨[], 0⟩ ⟨.null, .num (.fin 0)⟩).1 (by decide)

theorem pairwise_createdAt_lt_of_sorted_nodup {l : List LocationRecord}
    (hs : l.Pairwise byCreatedAtDesc)
    (hn : l.Pairwise fun a b => a.createdAt ≠ b.createdAt) :
    l.Pairwise fun a b => b.createdAt < a.createdAt := by
  induction l with
  | nil => exact List.Pairwise.nil
  | cons a l ih =>
      rw [List.pairwise_cons] at hs hn ⊢
      exact ⟨fun b hb => lt_of_le_of_ne (hs.1 b hb) (Ne.symm (hn.1 b hb)),
        ih hs.2 hn.2⟩

/-- C3: GET /locations answers HTTP 200 with the query result: at most 10
records, strictly descending in `createdAt` (given the store assigns
distinct timestamps), exactly 10 of them when the store holds more than 10,
and the empty array — not an error — on an empty store. -/
theorem c3_locations_recent (s : StoreState)
    (hnd : (s.records.map LocationRecord.createdAt).Nodup) :
    handleGetLocations (.ok (s.listRecent 10)) = ⟨200, .list (s.listRecent 10)⟩ ∧
    (s.listRecent 10).length ≤ 10 ∧
    (s.listRecent 10).Pairwise (fun a b => b.createdAt < a.createdAt) ∧
    (10 < s.records.length → (s.listRecent 10).length = 10) ∧
    (s.records = [] → s.listRecent 10 = []) := by
  refine ⟨rfl, ?_, ?_, ?_, ?_⟩
  · rw [StoreState.listRecent, List.length_take]
    exact min_le_left _ _
  · have hsorted : (s.records.insertionSort byCreatedAtDesc).Pairwise byCreatedAtDesc :=
      List.sorted_insertionSort byCreatedAtDesc s.records
    have hperm := List.perm_insertionSort byCreatedAtDesc s.records
    have hnd2 : ((s.records.insertionSort byCreatedAtDesc).map LocationRecord.createdAt).Nodup :=
      ((hperm.map LocationRecord.createdAt).nodup_iff).mpr hnd
    have hne : (s.records.insertionSort byCreatedAtDesc).Pairwise
        (fun a b => a.createdAt ≠ b.createdAt) := List.pairwise_map.mp hnd2
    have hstrict := pairwise_createdAt_lt_of_sorted_nodup hsorted hne
    exact List.Pairwise.sublist (List.take_sublist _ _) hstrict
  · intro h
    rw [StoreState.listRecent, List.length_take, List.length_insertionSort]
    exact min_eq_left (le_of_lt h)
  · intro h
    simp [StoreState.listRecent, h, List.insertionSort]

/-- Witness for C3 at a store of eleven records with distinct timestamps. -/
theorem c3_locations_recent_witness :
    handleGetLocations (.ok (c3SampleStore.listRecent 10))
        = ⟨200, .list (c3SampleStore.listRecent 10)⟩ ∧
    (c3SampleStore.listRecent 10).length ≤ 10 ∧
    (c3SampleStore.listRecent 10).Pairwise (fun a b => b.createdAt < a.createdAt) ∧
    (10 < c3SampleStore.records.length → (c3SampleStore.listRecent 10).length = 10) ∧
    (c3SampleStore.records = [] → c3SampleStore.listRecent 10 = []) :=
  c3_locations_recent c3SampleStore (by decide)

/-- The modelled store keeps creation timestamps distinct: `create`
timestamps every new record with the store clock, which dominates every
persisted timestamp, so the distinctness hypothesis of
`c3_locations_recent` holds in every state the store can reach. -/
theorem create_preserves_distinct_createdAt (s : StoreState) (la lo : ℚ)
    (hfresh : ∀ r ∈ s.records, r.createdAt < s.now)
    (hnd : (s.records.map LocationRecord.createdAt).Nodup) :
    (∀ r ∈ (s.create la lo).1.records, r.createdAt < (s.create la lo).1.now) ∧
    ((s.create la lo).1.records.map LocationRecord.createdAt).Nodup := by
  constructor
  · intro r hr
    simp [StoreState.create] at hr
    rcases hr with hr | hr
    · exact Nat.lt_succ_of_lt (hfresh r hr)
    · subst hr
      exact Nat.lt_succ_self _
  · simp [StoreState.create, List.nodup_append, hnd]
    intro x hx
    exact Nat.ne_of_lt (hfresh x hx)

theorem shutdownInv_init : shutdownInv sysInit := by
  refine ⟨fun h => ?_, fun c hc => ?_, fun h => ?_⟩
  · simp [sysInit] at h
  · simp [sysInit] at hc
  · rcases h with h | h <;> simp [sysInit] at h

theorem shutdownInv_step (s t : Sys) (hstep : SStep s t) (h : shutdownInv s) :
    shutdownInv t := by
  obtain ⟨h1, h2, h3⟩ := h
  cases hstep with
  | accept hp =>
      dsimp only [shutdownInv]
      refine ⟨fun hdb => ?_, fun c hc => ?_, fun hph => ?_⟩
      · rcases (h1 hdb).2 with h' | h' <;> simp [hp] at h'
      · have h' := (h2 c hc).2.2
        simp [hp] at h'
      · rcases hph with h' | h' <;> simp [hp] at h'
  | finish n hn =>
      dsimp only [shutdownInv]
      refine ⟨fun hdb => ?_, fun c hc => ?_, fun hph => ?_⟩
      · have h' := (h1 hdb).1
        rw [hn] at h'
        simp at h'
      · have h' := h3 (Or.inr (h2 c hc).2.2)
        rw [hn] at h'
        simp at h'
      · have h' := h3 hph
        rw [hn] at h'
        simp at h'
  | sigterm hp =>
      dsimp only [shutdownInv]
      refine ⟨fun hdb => ?_, fun c hc => ?_, fun hph => ?_⟩
      · rcases (h1 hdb).2 with h' | h' <;> simp [hp] at h'
      · have h' := (h2 c hc).2.2
        simp [hp] at h'
      · rcases hph with h' | h' <;> simp at h'
  | drainDone hp hi =>
      dsimp only [shutdownInv]
      refine ⟨fun hdb => ?_, fun c hc => ?_, fun _ => hi⟩
      · rcases (h1 hdb).2 with h' | h' <;> simp [hp] at h'
      · have h' := (h2 c hc).2.2
        simp [hp] at h'
  | dbClose hp =>
      dsimp only [shutdownInv]
      refine ⟨fun _ => ⟨h3 (Or.inl hp), Or.inl hp⟩, fun c hc => ?_, fun hph => h3 hph⟩
      have h' := (h2 c hc).2.2
      simp [hp] at h'
  | exit hp hdb =>
      dsimp only [shutdownInv]
      refine ⟨fun _ => ⟨h3 (Or.inl hp), Or.inr rfl⟩, fun c hc => ?_, fun _ => h3 (Or.inl hp)⟩
      injection hc with hc
      exact ⟨hc.symm, hdb, rfl⟩

theorem shutdownInv_reachable (s : Sys)
    (h : Relation.ReflTransGen SStep sysInit s) : shutdownInv s := by
  induction h with
  | refl => exact shutdownInv_init
  | tail hab hbc ih => exact shutdownInv_step _ _ hbc ih

/-- C7: in every state reachable from the SIGTERM handler's starting point,
the storage connection is closed only once no request is in flight and the
listener has left the accepting phases (so the drain completes before the
storage close), the process has exited only with code 0 and only after the
storage connection was closed, and while draining no step increases the
number of in-flight requests (no new connections are accepted). -/
theorem c7_sigterm_shutdown_order (s : Sys)
    (h : Relation.ReflTransGen SStep sysInit s) :
    (s.dbOpen = false → s.inflight = 0 ∧ s.phase ≠ .listening ∧ s.phase ≠ .draining) ∧
    (∀ c, s.exitCode = some c → c = 0 ∧ s.dbOpen = false) ∧
    (∀ t, SStep s t → s.phase = .draining → t.inflight ≤ s.inflight) := by
  obtain ⟨h1, h2, h3⟩ := shutdownInv_reachable s h
  refine ⟨fun hdb => ?_, fun c hc => ⟨(h2 c hc).1, (h2 c hc).2.1⟩, fun t hstep hph => ?_⟩
  · obtain ⟨hi, hp⟩ := h1 hdb
    refine ⟨hi, ?_, ?_⟩ <;> rcases hp with h' | h' <;> simp [h']
  · cases hstep with
    | accept hp => rw [hph] at hp; cases hp
    | finish n hn => dsimp only; rw [hn]; exact Nat.le_succ n
    | sigterm hp => exact Nat.le_refl _
    | drainDone hp hi => exact Nat.le_refl _
    | dbClose hp => exact Nat.le_refl _
    | exit hp hdb => exact Nat.le_refl _

/-- Witness for C7 at the final state of the trace
sigterm → drain completes → storage closed → exit 0. -/
theorem c7_sigterm_shutdown_order_witness :
    (0 : Nat) = 0 ∧ (Sys.mk .stopped 0 false (some 0)).dbOpen = false :=
  have e1 : SStep sysInit ⟨.draining, 0, true, none⟩ := SStep.sigterm sysInit rfl
  have e2 : SStep ⟨.draining, 0, true, none⟩ ⟨.dbClosing, 0, true, none⟩ :=
    SStep.drainDone ⟨.draining, 0, true, none⟩ rfl rfl
  have e3 : SStep ⟨.dbClosing, 0, true, none⟩ ⟨.dbClosing, 0, false, none⟩ :=
    SStep.dbClose ⟨.dbClosing, 0, true, none⟩ rfl
  have e4 : SStep ⟨.dbClosing, 0, false, none⟩ ⟨.stopped, 0, false, some 0⟩ :=
    SStep.exit ⟨.dbClosing, 0, false, none⟩ rfl rfl
  have hreach : Relation.ReflTransGen SStep sysInit ⟨.stopped, 0, false, some 0⟩ :=
    Relation.ReflTransGen.tail
      (Relation.ReflTransGen.tail
        (Relation.ReflTransGen.tail
          (Relation.ReflTransGen.tail Relation.ReflTransGen.refl e1) e2) e3) e4
  (c7_sigterm_shutdown_order ⟨.stopped, 0, false, some 0⟩ hreach).2.1 0 rfl

/-- C8, counterexample to "any other path, of any method": a POST to an
unknown path with no matching asset falls through the GET-only static
middleware and the GET-only `app.get("*")` fallback to the framework's
default 404 — it is served neither a static file nor `index.html`. -/
theorem c8_counterexample :
    route (fun _ => false) .POST "/unknown" = .notFound ∧
    Routed.notFound ≠ .indexHtml ∧
    (∀ p, Routed.notFound ≠ .staticAsset p) :=
  ⟨by decide, by decide, fun p h => nomatch h⟩

/-- C8 (amended): every GET request whose path is not "/locations" —
including GET /send-location — is served from the static bundle: the
matching asset when one exists, otherwise `index.html`; no API handler, no
framework 404, and hence no JSON error arises on this path. -/
theorem c8_get_static_fallback (hasAsset : String → Bool) (p : String)
    (hp : p ≠ "/locations") :
    route hasAsset .GET p = (if hasAsset p then .staticAsset p else .indexHtml) ∧
    route hasAsset .GET p ≠ .apiSendLocation ∧
    route hasAsset .GET p ≠ .apiLocations ∧
    route hasAsset .GET p ≠ .notFound := by
  have hroute : route hasAsset .GET p
      = (if hasAsset p then .staticAsset p else .indexHtml) := by
    simp [route, hp]
  refine ⟨hroute, ?_, ?_, ?_⟩ <;> rw [hroute] <;> split <;> simp

/-- Witness for the amended C8 at GET /dashboard with an empty asset
bundle: the request is served `index.html`. -/
theorem c8_get_static_fallback_witness :
    route (fun _ => false) .GET "/dashboard"
        = (if (fun _ => false) "/dashboard" then Routed.staticAsset "/dashboard"
           else Routed.indexHtml) ∧
    route (fun _ => false) .GET "/dashboard" ≠ .apiSendLocation ∧
    route (fun _ => false) .GET "/dashboard" ≠ .apiLocations ∧
    route (fun _ => false) .GET "/dashboard" ≠ .notFound :=
  c8_get_static_fallback (fun _ => false) "/dashboard" (by decide)
